import Mathlib

/-!
Verification of the ARISS sentiment-aggregation engine (`ariss_scorer.py`).

The embedding is shallow:
* floats are modelled by an arbitrary `LinearOrderedField` with a `FloorRing`
  (instantiated at `ℚ` for executable claims and at `ℝ` where the source
  computes logarithms or square roots);
* the external estimator libraries (TextBlob, VADER, the Claude API) are
  modelled as oracle functions stored in the `ARISSScorer` structure, with the
  documented range invariant of the TextBlob polarity (`[-1, 1]`) carried as a
  proof field;
* `Dict[str, Any]` results are modelled by structures whose optional keys are
  `Option`-typed; the irrational-valued `std_dev` entry of the aggregate dict
  is modelled by the separate real-valued function `ariss_std_dev`;
* Python's `round(x, d)` (float, banker's rounding) is modelled by `roundTo d`
  built on Mathlib's `round`; the two agree away from exact half-way ties, and
  every concrete value used below is tie-free.
-/

namespace ARISS

/-- Length weighting constants from the source. -/
def MIN_MEANINGFUL_WORDS : ℕ := 5

/-- Word count at which the length weight saturates. -/
def MAX_MEANINGFUL_WORDS : ℕ := 75

/-- `Comment` dataclass (the `timestamp` field, a wall-clock instant, is
irrelevant to every aggregation claim and is omitted). -/
structure Comment where
  text : String
  source : String
  platform_id : String
  author : String
  upvotes : ℤ := 0
  subreddit : Option String := none
  video_id : Option String := none

/-- `len(text.split())`: Python `str.split()` splits on whitespace runs and
drops empty pieces. -/
def wordCount (text : String) : ℕ :=
  ((text.split Char.isWhitespace).filter (fun w => w ≠ "")).length

/-- `np.clip(x, lo, hi) = min(hi, max(lo, x))`. -/
def clip {K : Type} [LinearOrder K] (x lo hi : K) : K :=
  min (max x lo) hi

/-- Core of `_length_weight`, as a function of the word count `wc`:
`0` for `wc = 0`, otherwise `np.clip(log1p(wc)/log1p(75), 0.1, 1.0)`. -/
noncomputable def lengthWeightOfCount (wc : ℕ) : ℝ :=
  if wc ≤ 0 then 0
  else clip (Real.log (1 + (wc : ℝ)) / Real.log (1 + (MAX_MEANINGFUL_WORDS : ℝ)))
    (1 / 10) 1

/-- `_length_weight(text)` from the source. -/
noncomputable def length_weight (text : String) : ℝ :=
  lengthWeightOfCount (wordCount text)

/-- The `platform_credibility` lookup table with default `50`. -/
def platformBase (source : String) : ℝ :=
  if source = "reddit" then 65
  else if source = "youtube" then 55
  else if source = "twitter" then 58
  else if source = "news_comments" then 70
  else 50

/-- Engagement adjustment of `calculate_source_credibility`:
`min(10, log1p(u)*1.5)` for `u > 0`, `max(-20, log1p(|u|)*(-2))` for
`u < -2`, and `0` otherwise. -/
noncomputable def credAdj (u : ℤ) : ℝ :=
  if 0 < u then min 10 (Real.log (1 + (u : ℝ)) * 1.5)
  else if u < -2 then max (-20) (Real.log (1 + (|u| : ℝ)) * (-2))
  else 0

/-- `ARISSScorer.calculate_source_credibility`: platform base plus engagement
adjustment, clamped by `np.clip(., 5, 100)`. -/
noncomputable def calculate_source_credibility (c : Comment) : ℝ :=
  clip (platformBase c.source + credAdj c.upvotes) 5 100

/-- Outcome of the Claude API call in `analyze_sentiment_claude`: `failure`
covers a raised exception (timeout, transport, `json.loads`, a non-numeric
field) and a response with no JSON object (`re.search` finds no match) — both
reach the same fallback line; `ok s b` is a parsed JSON object whose
`sentiment` and `bias_score` entries are the numbers `s` and `b`, `none`
meaning the key is absent (then `result.get` supplies the default `50`). -/
inductive ClaudeOutcome where
  | failure : ClaudeOutcome
  | ok (sentiment : Option ℚ) (bias : Option ℚ) : ClaudeOutcome

/-- The scorer with its external estimators modelled as oracles:
`textblob_polarity t` is `TextBlob(t).sentiment.polarity`, a float in
`[-1, 1]` (the library's documented range, carried as a proof field);
`vader_compound` is `none` when the vaderSentiment import failed (the
source then stores `self.vader = None`), otherwise the analyzer's compound
score; `claude` is the outcome of the API call for a `(text, subject)` pair. -/
structure ARISSScorer where
  textblob_polarity : String → ℚ
  textblob_polarity_bounds :
    ∀ t, -1 ≤ textblob_polarity t ∧ textblob_polarity t ≤ 1
  vader_compound : Option (String → ℚ)
  claude : String → String → ClaudeOutcome

/-- `analyze_sentiment_textblob`: `(polarity + 1) * 50`. -/
def analyze_sentiment_textblob (self : ARISSScorer) (text : String) : ℚ :=
  (self.textblob_polarity text + 1) * 50

/-- `analyze_sentiment_vader`: `50.0` when the analyzer is `None`, else
`(compound + 1) * 50`. -/
def analyze_sentiment_vader (self : ARISSScorer) (text : String) : ℚ :=
  match self.vader_compound with
  | none => 50
  | some f => (f text + 1) * 50

/-- `analyze_sentiment_claude`: on a parsed response, both numbers are clamped
by `np.clip(., 0, 100)` (missing keys default to `50`); on any failure the
function returns `(analyze_sentiment_textblob(text), 50.0)`. -/
def analyze_sentiment_claude (self : ARISSScorer) (text subject : String) :
    ℚ × ℚ :=
  match self.claude text subject with
  | ClaudeOutcome.ok s b => (clip (s.getD 50) 0 100, clip (b.getD 50) 0 100)
  | ClaudeOutcome.failure => (analyze_sentiment_textblob self text, 50)

/-- `SentimentScore` dataclass (again minus the wall-clock `timestamp`),
generic over the number field. -/
structure SentimentScore (K : Type) where
  comment_id : String
  text : String
  source : String
  textblob_score : K
  vader_score : K
  claude_score : K
  bias_score : K
  source_credibility : K
  length_weight : K
  weighted_score : K
  upvotes : ℤ
  author : String
  word_count : ℕ

/-- `ARISSScorer.analyze_comment`: runs the three analysers, the credibility
and length weights, and stores the `0.60/0.25/0.15` ensemble in
`weighted_score`. The md5 `comment_id` digest is modelled by its preimage key
`source:platform_id` (the claims never inspect it). -/
noncomputable def analyze_comment (self : ARISSScorer) (comment : Comment)
    (subject : String) : SentimentScore ℝ :=
  let textblob_score := analyze_sentiment_textblob self comment.text
  let vader_score := analyze_sentiment_vader self comment.text
  let cb := analyze_sentiment_claude self comment.text subject
  let ensemble : ℚ := cb.1 * 0.60 + vader_score * 0.25 + textblob_score * 0.15
  { comment_id := comment.source ++ ":" ++ comment.platform_id
    text := comment.text
    source := comment.source
    textblob_score := (textblob_score : ℝ)
    vader_score := (vader_score : ℝ)
    claude_score := (cb.1 : ℝ)
    bias_score := (cb.2 : ℝ)
    source_credibility := calculate_source_credibility comment
    length_weight := length_weight comment.text
    weighted_score := (ensemble : ℝ)
    upvotes := comment.upvotes
    author := comment.author
    word_count := wordCount comment.text }

section Stats

variable {K : Type} [LinearOrderedField K] [FloorRing K]

/-- `np.mean` of a list (`0` on `[]`, unreachable in the guarded uses). -/
def meanK (xs : List K) : K := xs.sum / (xs.length : K)

/-- `np.var`: population variance, the mean of squared deviations. -/
def varK (xs : List K) : K :=
  ((xs.map fun x => (x - meanK xs) ^ 2).sum) / (xs.length : K)

/-- `np.dot` of two equal-length vectors. -/
def dotK (xs ys : List K) : K := (List.zipWith (· * ·) xs ys).sum

/-- Python `min` over a non-empty list (`0` on `[]`, unreachable). -/
def listMin : List K → K
  | [] => 0
  | x :: xs => xs.foldl min x

/-- Python `max` over a non-empty list (`0` on `[]`, unreachable). -/
def listMax : List K → K
  | [] => 0
  | x :: xs => xs.foldl max x

/-- Python `round(x, d)` modelled as rounding to the nearest multiple of
`10 ^ (-d)`, spelled with the floor (this is Mathlib's `round`, cf.
`round_eq`). The float version rounds exact halves to even; every concrete
value below is tie-free, where the two conventions agree. -/
def roundTo (d : ℕ) (x : K) : K :=
  ((⌊x * (10 : K) ^ d + 1 / 2⌋ : ℤ) : K) / (10 : K) ^ d

/-- The per-comment aggregation weight (loop body of `calculate_ariss`):
`max(0.01, cred_w * bias_w * len_w)` with `cred_w = credibility/100`,
`bias_w = 1 - bias/100`, `len_w = length_weight`. -/
def commentWeight (s : SentimentScore K) : K :=
  max (1 / 100)
    (s.source_credibility / 100 * (1 - s.bias_score / 100) * s.length_weight)

/-- The list `weights` built by `calculate_ariss`. -/
def arissWeights (scores : List (SentimentScore K)) : List K :=
  scores.map commentWeight

/-- The list `norm_weights = [w / total_w for w in weights]`. -/
def normWeights (scores : List (SentimentScore K)) : List K :=
  (arissWeights scores).map fun w => w / (arissWeights scores).sum

end Stats

/-- The dictionary returned by `calculate_ariss`, as a structure: keys present
only on one branch are `Option`-typed (`error` only for empty input, the
statistics only for non-empty input). The wall-clock `timestamp` entry is
omitted and the irrational `std_dev` entry lives in `ariss_std_dev` below. -/
structure ARISSResult (K : Type) where
  ariss_score : K
  confidence : K
  sample_size : ℕ
  error : Option String
  mean_bias : Option K
  mean_credibility : Option K
  mean_length_weight : Option K
  mean_word_count : Option K
  variance : Option K
  min_score : Option K
  max_score : Option K
  source_breakdown : Option (List (String × ℕ))

/-- First-appearance-ordered list of distinct sources (the key order of
`Counter`/`dict` in Python). -/
def uniqueSources (l : List String) : List String :=
  l.foldl (fun acc s => if s ∈ acc then acc else acc ++ [s]) []

/-- `dict(Counter(sources))`: each distinct source with its multiplicity. -/
def sourceBreakdown (srcs : List String) : List (String × ℕ) :=
  (uniqueSources srcs).map fun s => (s, (srcs.filter fun x => x = s).length)

/-- `ARISSScorer.calculate_ariss`. Empty input returns the sentinel dict
`{'ariss_score': 50.0, 'confidence': 0.0, 'sample_size': 0,
'error': 'No data available'}`; otherwise the weighted mean of the raw
ensemble scores under the normalized comment weights, the confidence
heuristic, and the descriptive statistics, each rounded as in the source. -/
def calculate_ariss {K : Type} [LinearOrderedField K] [FloorRing K]
    (scores : List (SentimentScore K)) : ARISSResult K :=
  match scores with
  | [] =>
    { ariss_score := 50
      confidence := 0
      sample_size := 0
      error := some "No data available"
      mean_bias := none
      mean_credibility := none
      mean_length_weight := none
      mean_word_count := none
      variance := none
      min_score := none
      max_score := none
      source_breakdown := none }
  | _ :: _ =>
    let raw_scores := scores.map fun s => s.weighted_score
    let ariss_score := dotK raw_scores (normWeights scores)
    let variance := varK raw_scores
    let n := scores.length
    let size_conf : K := min 100 ((n : K) * 2)
    let var_conf : K := max 0 (100 - variance)
    let confidence := (size_conf + var_conf) / 2
    { ariss_score := roundTo 2 ariss_score
      confidence := roundTo 2 confidence
      sample_size := n
      error := none
      mean_bias := some (roundTo 2 (meanK (scores.map fun s => s.bias_score)))
      mean_credibility :=
        some (roundTo 2 (meanK (scores.map fun s => s.source_credibility)))
      mean_length_weight :=
        some (roundTo 3 (meanK (scores.map fun s => s.length_weight)))
      mean_word_count :=
        some (roundTo 1 (meanK (scores.map fun s => (s.word_count : K))))
      variance := some (roundTo 2 variance)
      min_score := some (roundTo 2 (listMin raw_scores))
      max_score := some (roundTo 2 (listMax raw_scores))
      source_breakdown := some (sourceBreakdown (scores.map fun s => s.source)) }

/-- The `std_dev` entry of the dict: `round(np.std(raw_scores), 2)`, i.e. the
square root of the (un-rounded) population variance, rounded to 2 decimals. -/
noncomputable def ariss_std_dev (scores : List (SentimentScore ℚ)) : ℝ :=
  roundTo 2 (Real.sqrt ((varK (scores.map fun s => s.weighted_score) : ℚ) : ℝ))

/-- All rational-valued entries of a non-empty-case aggregate dict (used to
state that a quantity is reported nowhere in the result). -/
def reportedValues (r : ARISSResult ℚ) : List ℚ :=
  [r.ariss_score, r.confidence, (r.sample_size : ℚ), r.mean_bias.getD 0,
    r.mean_credibility.getD 0, r.mean_length_weight.getD 0,
    r.mean_word_count.getD 0, r.variance.getD 0, r.min_score.getD 0,
    r.max_score.getD 0]

/-- Modelled from the spec wording only (no median is computed anywhere in the
source): the textbook median — middle element of the sorted list, or the
average of the two middle elements. Used solely to compare the spec's claim
against the code's actual report. -/
def medianSpec (xs : List ℚ) : ℚ :=
  let s := xs.insertionSort (· ≤ ·)
  if xs.length % 2 = 1 then s.getD (xs.length / 2) 0
  else (s.getD (xs.length / 2 - 1) 0 + s.getD (xs.length / 2) 0) / 2

/-- A `SentimentScore ℚ` with the fields relevant to aggregation. -/
def mkScore (score bias cred lw : ℚ) (src : String := "reddit")
    (wc : ℕ := 5) : SentimentScore ℚ :=
  { comment_id := ""
    text := ""
    source := src
    textblob_score := score
    vader_score := score
    claude_score := score
    bias_score := bias
    source_credibility := cred
    length_weight := lw
    weighted_score := score
    upvotes := 0
    author := ""
    word_count := wc }

/-- Scenario input for C1: ensemble scores `[20, 50, 80]`, equal weights. -/
def demoEqual : List (SentimentScore ℚ) :=
  [mkScore 20 0 100 1, mkScore 50 0 100 1, mkScore 80 0 100 1]

/-- Counterexample input for C1: ensemble scores `[20, 50, 81]`, equal
weights, whose exact weighted mean `151/3` is not a 2-decimal number. -/
def cexRounding : List (SentimentScore ℚ) :=
  [mkScore 20 0 100 1, mkScore 50 0 100 1, mkScore 81 0 100 1]

/-- Counterexample input for C6: scores `[0, 0, 1]` give variance `2/9`, so
the exact confidence `476/9` is not a 2-decimal number. -/
def cexConf : List (SentimentScore ℚ) :=
  [mkScore 0 0 100 1, mkScore 0 0 100 1, mkScore 1 0 100 1]

/-- Counterexample input for C8: scores `[10, 90]` with unequal credibilities,
whose mean and median (both `50`) appear nowhere in the returned dict. -/
def cexMedian : List (SentimentScore ℚ) :=
  [mkScore 10 0 100 1, mkScore 90 0 50 1]

/-- A scorer whose Claude call always fails and whose TextBlob polarity is the
constant `11/25`, so the lightweight score is `(11/25 + 1) * 50 = 72`; the
VADER library is unavailable. -/
def failingScorer : ARISSScorer :=
  { textblob_polarity := fun _ => 11 / 25
    textblob_polarity_bounds := by intro t; constructor <;> norm_num
    vader_compound := none
    claude := fun _ _ => ClaudeOutcome.failure }

/-- A concrete comment for the witnesses. -/
def witComment : Comment :=
  { text := "t", source := "reddit", platform_id := "p", author := "a" }

/-- A second concrete comment from the same source with more upvotes. -/
def witCommentB : Comment :=
  { text := "t", source := "reddit", platform_id := "q", author := "a",
    upvotes := 7 }

/-! ## Helper lemmas -/

section ClipLemmas

variable {K : Type} [LinearOrder K]

lemma clip_le_hi (x lo hi : K) : clip x lo hi ≤ hi := min_le_right _ _

lemma lo_le_clip (x : K) {lo hi : K} (h : lo ≤ hi) : lo ≤ clip x lo hi :=
  le_min (le_max_right _ _) h

lemma clip_mono {x y : K} (lo hi : K) (h : x ≤ y) :
    clip x lo hi ≤ clip y lo hi :=
  min_le_min (max_le_max h le_rfl) le_rfl

end ClipLemmas

section RoundLemmas

variable {K : Type} [LinearOrderedField K] [FloorRing K]

lemma roundTo_mono (d : ℕ) {x y : K} (h : x ≤ y) : roundTo d x ≤ roundTo d y := by
  unfold roundTo
  have hp : (0 : K) ≤ (10 : K) ^ d := by positivity
  refine div_le_div_of_nonneg_right ?_ hp
  exact_mod_cast Int.floor_mono (by nlinarith)

lemma roundTo_nonneg (d : ℕ) {x : K} (h : 0 ≤ x) : 0 ≤ roundTo d x := by
  unfold roundTo
  have hp : (0 : K) ≤ (10 : K) ^ d := by positivity
  refine div_nonneg ?_ hp
  have : (0 : ℤ) ≤ ⌊x * (10 : K) ^ d + 1 / 2⌋ := by
    refine Int.le_floor.2 ?_
    have : (0 : K) ≤ x * (10 : K) ^ d := by positivity
    push_cast
    linarith
  exact_mod_cast this

lemma roundTo_le_int (d : ℕ) (n : ℤ) {x : K} (h : x ≤ (n : K)) :
    roundTo d x ≤ (n : K) := by
  unfold roundTo
  have hp : (0 : K) < (10 : K) ^ d := by positivity
  rw [div_le_iff₀ hp]
  have hfl : ⌊x * (10 : K) ^ d + 1 / 2⌋ ≤ n * 10 ^ d := by
    have hlt : ⌊x * (10 : K) ^ d + 1 / 2⌋ < n * 10 ^ d + 1 :=
      Int.floor_lt.2 (by push_cast; nlinarith)
    omega
  calc ((⌊x * (10 : K) ^ d + 1 / 2⌋ : ℤ) : K) ≤ ((n * 10 ^ d : ℤ) : K) := by
        exact_mod_cast hfl
    _ = (n : K) * (10 : K) ^ d := by push_cast; ring

end RoundLemmas

section WeightLemmas

variable {K : Type} [LinearOrderedField K]

lemma commentWeight_ge (s : SentimentScore K) : 1 / 100 ≤ commentWeight s :=
  le_max_left _ _

lemma sum_map_div (l : List K) (t : K) :
    (l.map fun w => w / t).sum = l.sum / t := by
  induction l with
  | nil => simp
  | cons a l ih => simp [ih, add_div]

lemma arissWeights_sum_ge (scores : List (SentimentScore K)) :
    (scores.length : K) * (1 / 100) ≤ (arissWeights scores).sum := by
  have h := List.card_nsmul_le_sum (arissWeights scores) (1 / 100 : K)
    (fun x hx => by
      obtain ⟨s, _, rfl⟩ := List.mem_map.1 hx
      exact commentWeight_ge s)
  have hlen : (arissWeights scores).length = scores.length := List.length_map _ _
  rw [hlen, nsmul_eq_mul] at h
  exact h

lemma arissWeights_sum_pos {scores : List (SentimentScore K)}
    (h : scores ≠ []) : 0 < (arissWeights scores).sum := by
  have hlen : 0 < scores.length := List.length_pos.2 h
  have h1 : (1 : K) * (1 / 100) ≤ (scores.length : K) * (1 / 100) := by
    have : (1 : K) ≤ (scores.length : K) := by exact_mod_cast hlen
    nlinarith
  have := arissWeights_sum_ge scores
  linarith

lemma normWeights_sum_one {scores : List (SentimentScore K)}
    (h : scores ≠ []) : (normWeights scores).sum = 1 := by
  unfold normWeights
  rw [sum_map_div]
  exact div_self (ne_of_gt (arissWeights_sum_pos h))

lemma varK_nonneg (xs : List K) : 0 ≤ varK xs := by
  unfold varK
  refine div_nonneg (List.sum_nonneg fun x hx => ?_) (by positivity)
  obtain ⟨y, _, rfl⟩ := List.mem_map.1 hx
  positivity

end WeightLemmas

section LogLemmas

lemma lengthWeight_zero : lengthWeightOfCount 0 = 0 := by
  simp [lengthWeightOfCount]

lemma lengthWeight_mem (wc : ℕ) (h : 1 ≤ wc) :
    1 / 10 ≤ lengthWeightOfCount wc ∧ lengthWeightOfCount wc ≤ 1 := by
  have hne : ¬ wc ≤ 0 := by omega
  unfold lengthWeightOfCount
  rw [if_neg hne]
  exact ⟨lo_le_clip _ (by norm_num), clip_le_hi _ _ _⟩

lemma lengthWeight_mono {a b : ℕ} (hab : a ≤ b) :
    lengthWeightOfCount a ≤ lengthWeightOfCount b := by
  rcases Nat.eq_zero_or_pos a with ha | ha
  · subst ha
    rw [lengthWeight_zero]
    rcases Nat.eq_zero_or_pos b with hb | hb
    · subst hb; rw [lengthWeight_zero]
    · have := (lengthWeight_mem b hb).1
      linarith
  · have hb : 1 ≤ b := le_trans ha hab
    have hna : ¬ a ≤ 0 := by omega
    have hnb : ¬ b ≤ 0 := by omega
    unfold lengthWeightOfCount
    rw [if_neg hna, if_neg hnb]
    refine clip_mono _ _ ?_
    have hden : 0 < Real.log (1 + (MAX_MEANINGFUL_WORDS : ℝ)) := by
      refine Real.log_pos ?_
      norm_num [MAX_MEANINGFUL_WORDS]
    refine div_le_div_of_nonneg_right ?_ hden.le
    refine Real.log_le_log (by positivity) ?_
    have : (a : ℝ) ≤ (b : ℝ) := by exact_mod_cast hab
    linarith


lemma credAdj_nonpos {u : ℤ} (h : u < -2) : credAdj u ≤ 0 := by
  unfold credAdj
  rw [if_neg (by omega), if_pos h]
  refine max_le (by norm_num) ?_
  have hl : 0 ≤ Real.log (1 + (|u| : ℝ)) := by
    refine Real.log_nonneg ?_
    have : (0 : ℝ) ≤ (|u| : ℝ) := by exact_mod_cast abs_nonneg u
    linarith
  nlinarith

lemma credAdj_nonneg {u : ℤ} (h : 0 < u) : 0 ≤ credAdj u := by
  unfold credAdj
  rw [if_pos h]
  refine le_min (by norm_num) ?_
  have hl : 0 ≤ Real.log (1 + (u : ℝ)) := by
    refine Real.log_nonneg ?_
    have : (1 : ℝ) ≤ (u : ℝ) := by exact_mod_cast h
    linarith
  nlinarith

lemma credAdj_mid {u : ℤ} (h1 : ¬ 0 < u) (h2 : ¬ u < -2) : credAdj u = 0 := by
  unfold credAdj
  rw [if_neg h1, if_neg h2]

lemma credAdj_mono {u v : ℤ} (h : u ≤ v) : credAdj u ≤ credAdj v := by
  by_cases hv : 0 < v
  · by_cases hu : 0 < u
    · unfold credAdj
      rw [if_pos hu, if_pos hv]
      refine min_le_min le_rfl ?_
      refine mul_le_mul_of_nonneg_right ?_ (by norm_num)
      refine Real.log_le_log (by positivity) ?_
      have : (u : ℝ) ≤ (v : ℝ) := by exact_mod_cast h
      linarith
    · by_cases hu2 : u < -2
      · exact le_trans (credAdj_nonpos hu2) (credAdj_nonneg hv)
      · rw [credAdj_mid hu hu2]
        exact credAdj_nonneg hv
  · by_cases hv2 : v < -2
    · have hu2 : u < -2 := by omega
      unfold credAdj
      rw [if_neg (by omega), if_pos hu2, if_neg hv, if_pos hv2]
      refine max_le_max le_rfl ?_
      refine mul_le_mul_of_nonpos_right ?_ (by norm_num)
      have h1 : (|v| : ℝ) ≤ (|u| : ℝ) := by
        have : |v| ≤ |u| := by
          rw [abs_of_neg (by omega : v < 0), abs_of_neg (by omega : u < 0)]
          omega
        exact_mod_cast this
      refine Real.log_le_log ?_ (by linarith)
      have : (0 : ℝ) ≤ (|v| : ℝ) := by exact_mod_cast abs_nonneg v
      linarith
    · rw [credAdj_mid hv hv2]
      by_cases hu2 : u < -2
      · exact credAdj_nonpos hu2
      · rw [credAdj_mid (by omega) hu2]

end LogLemmas

/-! ## Claim theorems -/

/-- Claim C2: for the empty input list, `calculate_ariss` returns the sentinel
result with `ariss_score = 50`, `confidence = 0`, `sample_size = 0` and the
explicit `'No data available'` marker; being a total function of its input, it
raises no exception. -/
theorem spec_C2 :
    calculate_ariss ([] : List (SentimentScore ℚ)) =
      { ariss_score := 50, confidence := 0, sample_size := 0,
        error := some "No data available", mean_bias := none,
        mean_credibility := none, mean_length_weight := none,
        mean_word_count := none, variance := none, min_score := none,
        max_score := none, source_breakdown := none } := rfl

/-- Claim C9: for every non-empty score list, each per-comment weight is at
least `0.01`, the total weight is at least `0.01 * n` and hence positive, and
the normalized weights sum to `1` (so the normalization never divides by
zero). -/
theorem spec_C9 (scores : List (SentimentScore ℚ)) (h : scores ≠ []) :
    (∀ w ∈ arissWeights scores, 1 / 100 ≤ w) ∧
    (scores.length : ℚ) * (1 / 100) ≤ (arissWeights scores).sum ∧
    0 < (arissWeights scores).sum ∧
    (normWeights scores).sum = 1 := by
  refine ⟨?_, arissWeights_sum_ge scores, arissWeights_sum_pos h,
    normWeights_sum_one h⟩
  intro w hw
  obtain ⟨s, _, rfl⟩ := List.mem_map.1 hw
  exact commentWeight_ge s

/-- Witness for C9 at a concrete three-comment list. -/
theorem spec_C9_witness :
    0 < (arissWeights demoEqual).sum :=
  (spec_C9 demoEqual (by simp [demoEqual])).2.2.1

/-- Claim C1 as amended: for every non-empty score list the per-comment
weights are `max(0.01, credibility/100 * length_weight * (1 - bias/100))`,
the normalized weights sum to `1`, and the returned `ariss_score` is the dot
product of the ensemble scores with the normalized weights, rounded to two
decimal places; in particular the `[20, 50, 80]` equal-weight scenario yields
exactly `50`. -/
theorem spec_C1 :
    (∀ (scores : List (SentimentScore ℚ)), scores ≠ [] →
      arissWeights scores = scores.map (fun s =>
        max (1 / 100)
          (s.source_credibility / 100 * s.length_weight *
            (1 - s.bias_score / 100))) ∧
      (normWeights scores).sum = 1 ∧
      (calculate_ariss scores).ariss_score =
        roundTo 2 (dotK (scores.map fun s => s.weighted_score)
          (normWeights scores))) ∧
    (calculate_ariss demoEqual).ariss_score = 50 := by
  constructor
  · intro scores h
    refine ⟨?_, normWeights_sum_one h, ?_⟩
    · refine List.map_congr_left fun s _ => ?_
      unfold commentWeight
      ring_nf
    · cases scores with
      | nil => exact absurd rfl h
      | cons a t => rfl
  · norm_num [calculate_ariss, demoEqual, mkScore, normWeights, arissWeights,
      commentWeight, dotK, roundTo]

/-- Witness for C1 at a concrete three-comment list. -/
theorem spec_C1_witness :
    (calculate_ariss demoEqual).ariss_score =
      roundTo 2 (dotK (demoEqual.map fun s => s.weighted_score)
        (normWeights demoEqual)) :=
  (spec_C1.1 demoEqual (by simp [demoEqual])).2.2

/-- Counterexample to C1 as stated: for ensemble scores `[20, 50, 81]` with
equal weights the exact dot product is `151/3 = 50.3333...`, but the returned
`ariss_score` is the rounded value `50.33`, so the returned index is not equal
to the dot product. -/
theorem spec_C1_cex :
    (calculate_ariss cexRounding).ariss_score = 5033 / 100 ∧
    dotK (cexRounding.map fun s => s.weighted_score)
      (normWeights cexRounding) = 151 / 3 ∧
    ((5033 : ℚ) / 100) ≠ 151 / 3 := by
  refine ⟨?_, ?_, by norm_num⟩ <;>
    norm_num [calculate_ariss, cexRounding, mkScore, normWeights, arissWeights,
      commentWeight, dotK, roundTo]

/-- Claim C6 as amended: for every non-empty score list the returned
confidence is `(min(100, 2n) + max(0, 100 - Var(scores))) / 2` rounded to two
decimal places; consequently it lies in `[0, 100]`, and the sample-size term
saturates at `100` once `n ≥ 50`. -/
theorem spec_C6 (scores : List (SentimentScore ℚ)) (h : scores ≠ []) :
    (calculate_ariss scores).confidence =
      roundTo 2 ((min 100 ((scores.length : ℚ) * 2) +
        max 0 (100 - varK (scores.map fun s => s.weighted_score))) / 2) ∧
    0 ≤ (calculate_ariss scores).confidence ∧
    (calculate_ariss scores).confidence ≤ 100 ∧
    (50 ≤ scores.length → min 100 ((scores.length : ℚ) * 2) = 100) := by
  have hconf : (calculate_ariss scores).confidence =
      roundTo 2 ((min 100 ((scores.length : ℚ) * 2) +
        max 0 (100 - varK (scores.map fun s => s.weighted_score))) / 2) := by
    cases scores with
    | nil => exact absurd rfl h
    | cons a t => rfl
  refine ⟨hconf, ?_, ?_, ?_⟩
  · rw [hconf]
    refine roundTo_nonneg 2 ?_
    have h1 : (0 : ℚ) ≤ min 100 ((scores.length : ℚ) * 2) :=
      le_min (by norm_num) (by positivity)
    have h2 : (0 : ℚ) ≤
        max 0 (100 - varK (scores.map fun s => s.weighted_score)) :=
      le_max_left _ _
    linarith
  · rw [hconf]
    have := roundTo_le_int (K := ℚ) 2 100 (x :=
      (min 100 ((scores.length : ℚ) * 2) +
        max 0 (100 - varK (scores.map fun s => s.weighted_score))) / 2) ?_
    · exact_mod_cast this
    · have h1 : min 100 ((scores.length : ℚ) * 2) ≤ 100 := min_le_left _ _
      have h2 : max 0 (100 - varK (scores.map fun s => s.weighted_score)) ≤
          100 :=
        max_le (by norm_num) (by
          have := varK_nonneg (scores.map fun s => s.weighted_score)
          linarith)
      push_cast
      linarith
  · intro hn
    refine min_eq_left ?_
    have : (50 : ℚ) ≤ (scores.length : ℚ) := by exact_mod_cast hn
    linarith

/-- Witness for C6 at a concrete three-comment list. -/
theorem spec_C6_witness :
    0 ≤ (calculate_ariss demoEqual).confidence :=
  (spec_C6 demoEqual (by simp [demoEqual])).2.1

/-- Counterexample to C6 as stated: for ensemble scores `[0, 0, 1]` the exact
value of `(min(100, 2n) + max(0, 100 - Var)) / 2` is `476/9 = 52.888...`,
while the returned confidence is the rounded value `52.89`. -/
theorem spec_C6_cex :
    (calculate_ariss cexConf).confidence = 5289 / 100 ∧
    (min 100 ((cexConf.length : ℚ) * 2) +
      max 0 (100 - varK (cexConf.map fun s => s.weighted_score))) / 2 =
      476 / 9 ∧
    ((5289 : ℚ) / 100) ≠ 476 / 9 := by
  refine ⟨?_, ?_, by norm_num⟩ <;>
    norm_num [calculate_ariss, cexConf, mkScore, varK, meanK, roundTo]

/-- Claim C8 as amended: for every non-empty score list the result reports the
variance, standard deviation (in the separately modelled `std_dev` entry),
minimum and maximum of the ensemble scores (each rounded as in the source),
the per-source counts (with the correct multiplicities), and the mean bias
and mean credibility. -/
theorem spec_C8 (scores : List (SentimentScore ℚ)) (h : scores ≠ []) :
    (calculate_ariss scores).variance =
      some (roundTo 2 (varK (scores.map fun s => s.weighted_score))) ∧
    (calculate_ariss scores).min_score =
      some (roundTo 2 (listMin (scores.map fun s => s.weighted_score))) ∧
    (calculate_ariss scores).max_score =
      some (roundTo 2 (listMax (scores.map fun s => s.weighted_score))) ∧
    (calculate_ariss scores).mean_bias =
      some (roundTo 2 (meanK (scores.map fun s => s.bias_score))) ∧
    (calculate_ariss scores).mean_credibility =
      some (roundTo 2 (meanK (scores.map fun s => s.source_credibility))) ∧
    (calculate_ariss scores).source_breakdown =
      some (sourceBreakdown (scores.map fun s => s.source)) ∧
    (∀ src cnt, (src, cnt) ∈ sourceBreakdown (scores.map fun s => s.source) →
      cnt = ((scores.map fun s => s.source).filter fun x => x = src).length) ∧
    ariss_std_dev scores =
      roundTo 2 (Real.sqrt
        ((varK (scores.map fun s => s.weighted_score) : ℚ) : ℝ)) := by
  cases scores with
  | nil => exact absurd rfl h
  | cons a t =>
    refine ⟨rfl, rfl, rfl, rfl, rfl, rfl, ?_, rfl⟩
    intro src cnt hmem
    unfold sourceBreakdown at hmem
    obtain ⟨x, _, hx⟩ := List.mem_map.1 hmem
    obtain ⟨h1, h2⟩ := Prod.mk.injEq _ _ _ _ ▸ hx
    subst h1
    subst h2
    rfl

/-- Witness for C8 at a concrete three-comment list. -/
theorem spec_C8_witness :
    (calculate_ariss demoEqual).variance =
      some (roundTo 2 (varK (demoEqual.map fun s => s.weighted_score))) :=
  (spec_C8 demoEqual (by simp [demoEqual])).1

/-- Counterexample to C8 as stated: for ensemble scores `[10, 90]` with
unequal credibilities, the mean and the median of the ensemble scores are
both `50`, yet `50` appears nowhere among the values of the returned dict
(neither in its rational entries nor in the `std_dev` entry, which is `40`):
the result reports neither the mean nor the median of the ensemble scores. -/
theorem spec_C8_cex :
    medianSpec (cexMedian.map fun s => s.weighted_score) = 50 ∧
    meanK (cexMedian.map fun s => s.weighted_score) = 50 ∧
    (50 : ℚ) ∉ reportedValues (calculate_ariss cexMedian) ∧
    ariss_std_dev cexMedian ≠ 50 := by
  refine ⟨?_, ?_, ?_, ?_⟩
  · norm_num [medianSpec, cexMedian, mkScore, List.insertionSort,
      List.orderedInsert]
  · norm_num [meanK, cexMedian, mkScore]
  · norm_num [calculate_ariss, cexMedian, mkScore, normWeights, arissWeights,
      commentWeight, dotK, varK, meanK, listMin, listMax, roundTo,
      reportedValues]
  · have hv : varK (cexMedian.map fun s => s.weighted_score) = 1600 := by
      norm_num [varK, meanK, cexMedian, mkScore]
    unfold ariss_std_dev
    rw [hv]
    rw [show ((1600 : ℚ) : ℝ) = 40 ^ 2 by norm_num,
      Real.sqrt_sq (by norm_num : (0:ℝ) ≤ 40)]
    unfold roundTo
    have : ⌊(40 : ℝ) * 10 ^ 2 + 1 / 2⌋ = 4000 := by
      rw [Int.floor_eq_iff]
      norm_num
    rw [this]
    norm_num

/-- Claim C4: the length weight is monotonically non-decreasing in the word
count, is `0` at word count `0`, and lies in `[0.1, 1.0]` for every word
count at least `1`. -/
theorem spec_C4 :
    (∀ a b : ℕ, a ≤ b → lengthWeightOfCount a ≤ lengthWeightOfCount b) ∧
    lengthWeightOfCount 0 = 0 ∧
    (∀ wc : ℕ, 1 ≤ wc →
      1 / 10 ≤ lengthWeightOfCount wc ∧ lengthWeightOfCount wc ≤ 1) :=
  ⟨fun _ _ h => lengthWeight_mono h, lengthWeight_zero,
    fun wc h => lengthWeight_mem wc h⟩

/-- Witness for C4 at concrete word counts. -/
theorem spec_C4_witness :
    lengthWeightOfCount 1 ≤ lengthWeightOfCount 2 ∧
    lengthWeightOfCount 0 = 0 ∧
    1 / 10 ≤ lengthWeightOfCount 7 ∧ lengthWeightOfCount 7 ≤ 1 :=
  ⟨spec_C4.1 1 2 (by norm_num), spec_C4.2.1,
    (spec_C4.2.2 7 (by norm_num)).1, (spec_C4.2.2 7 (by norm_num)).2⟩

/-- Claim C5: for every comment the source credibility lies in `[5, 100]`,
and for two comments from the same source it is monotonically non-decreasing
in the engagement (upvote) value. -/
theorem spec_C5 :
    (∀ c : Comment,
      5 ≤ calculate_source_credibility c ∧
      calculate_source_credibility c ≤ 100) ∧
    (∀ c c' : Comment, c.source = c'.source → c.upvotes ≤ c'.upvotes →
      calculate_source_credibility c ≤ calculate_source_credibility c') := by
  constructor
  · intro c
    exact ⟨lo_le_clip _ (by norm_num), clip_le_hi _ _ _⟩
  · intro c c' hsrc hupv
    unfold calculate_source_credibility
    rw [hsrc]
    exact clip_mono _ _ (by
      have := credAdj_mono hupv
      linarith)

/-- Witness for C5 at two concrete reddit comments with `0` and `7`
upvotes. -/
theorem spec_C5_witness :
    (5 ≤ calculate_source_credibility witComment ∧
      calculate_source_credibility witComment ≤ 100) ∧
    calculate_source_credibility witComment ≤
      calculate_source_credibility witCommentB :=
  ⟨spec_C5.1 witComment, spec_C5.2 witComment witCommentB rfl (by decide)⟩

/-- Claim C7: for every possible Claude outcome — a parsed response with
arbitrary (possibly out-of-range or missing) numbers, or any failure — both
the polarity and the bias returned by `analyze_sentiment_claude` lie in
`[0, 100]` (the parsed branch is clamped; the fallback branch rescales the
TextBlob polarity, which the library keeps in `[-1, 1]`). -/
theorem spec_C7 (self : ARISSScorer) (text subject : String) :
    0 ≤ (analyze_sentiment_claude self text subject).1 ∧
    (analyze_sentiment_claude self text subject).1 ≤ 100 ∧
    0 ≤ (analyze_sentiment_claude self text subject).2 ∧
    (analyze_sentiment_claude self text subject).2 ≤ 100 := by
  cases hc : self.claude text subject with
  | failure =>
    obtain ⟨h1, h2⟩ := self.textblob_polarity_bounds text
    simp only [analyze_sentiment_claude, hc, analyze_sentiment_textblob]
    refine ⟨by nlinarith, by nlinarith, by norm_num, by norm_num⟩
  | ok s b =>
    simp only [analyze_sentiment_claude, hc]
    exact ⟨lo_le_clip _ (by norm_num), clip_le_hi _ _ _,
      lo_le_clip _ (by norm_num), clip_le_hi _ _ _⟩

/-- Claim C3: when the Claude call fails for a comment, no error propagates
(the function still returns a value), the contextual analysis returns exactly
the TextBlob fallback pair — polarity equal to the lightweight estimator's
value, bias defaulting to `50` — and the comment's stored contextual polarity
(`claude_score`) equals the lightweight value with no blending with the
failed value; in particular a lightweight score of `72` yields exactly
`72`. -/
theorem spec_C3 (self : ARISSScorer) (c : Comment) (subject : String)
    (hfail : self.claude c.text subject = ClaudeOutcome.failure) :
    analyze_sentiment_claude self c.text subject =
      (analyze_sentiment_textblob self c.text, 50) ∧
    (analyze_comment self c subject).bias_score = 50 ∧
    (analyze_comment self c subject).claude_score =
      ((analyze_sentiment_textblob self c.text : ℚ) : ℝ) ∧
    (analyze_sentiment_textblob self c.text = 72 →
      (analyze_comment self c subject).claude_score = 72) := by
  have h1 : analyze_sentiment_claude self c.text subject =
      (analyze_sentiment_textblob self c.text, 50) := by
    unfold analyze_sentiment_claude
    rw [hfail]
  have hcs : (analyze_comment self c subject).claude_score =
      ((analyze_sentiment_textblob self c.text : ℚ) : ℝ) := by
    simp only [analyze_comment, h1]
  refine ⟨h1, ?_, hcs, ?_⟩
  · simp only [analyze_comment, h1]
    norm_num
  · intro h72
    rw [hcs, h72]
    norm_num

/-- Witness for C3: a scorer whose Claude call always fails and whose
TextBlob score is `72` stores exactly `72` as the contextual polarity. -/
theorem spec_C3_witness :
    (analyze_comment failingScorer witComment "s").claude_score = 72 :=
  (spec_C3 failingScorer witComment "s" rfl).2.2.2
    (by norm_num [analyze_sentiment_textblob, failingScorer])

/-- Claim C10: when the VADER library is unavailable (`vader = None`), the
VADER estimator returns exactly `50` for every text, and every analysed
comment's ensemble score decomposes as the Claude score at weight `0.60`
plus the constant `50` at the fixed weight `0.25` plus the TextBlob score at
weight `0.15`. -/
theorem spec_C10 (self : ARISSScorer) (c : Comment) (subject : String)
    (hv : self.vader_compound = none) :
    (∀ text, analyze_sentiment_vader self text = 50) ∧
    (analyze_comment self c subject).vader_score = 50 ∧
    (analyze_comment self c subject).weighted_score =
      (analyze_comment self c subject).claude_score * 0.60 + 50 * 0.25 +
        (analyze_comment self c subject).textblob_score * 0.15 := by
  have hvad : ∀ text, analyze_sentiment_vader self text = 50 := by
    intro text
    unfold analyze_sentiment_vader
    rw [hv]
  refine ⟨hvad, ?_, ?_⟩
  · simp only [analyze_comment, hvad]
    norm_num
  · simp only [analyze_comment, hvad]
    push_cast
    ring

/-- Witness for C10 at a concrete scorer with the VADER analyzer missing. -/
theorem spec_C10_witness :
    (analyze_comment failingScorer witComment "s").vader_score = 50 :=
  (spec_C10 failingScorer witComment "s" rfl).2.1

end ARISS
